import Mathlib

/-!
Verification of the AI detection bridge of the Prarambh-Hackathon repository.

The embedding covers two source files:

* src/community-alert-dash/src/services/aiService.ts -- the asynchronous
  upload / event-stream detection bridge (Variant B): detectIssueWithAI,
  uploadImageToGradio, getGradioResult, extractUrlFromOutput,
  toAbsoluteGradioFileUrl, mockAIDetection, DEPARTMENT_MAP.
* src/src/lib/mockData.ts (second unit in the file) -- the Gradio-client
  bridge (Variant A): extractCategoryFromClassification.

JavaScript strings are Lean String values; JSON values decoded by JSON.parse
are modelled by the inductive type Json below; JavaScript undefined and null
are both modelled by Json.null (both are falsy and both make every property
access yield undefined, which is how the source consumes them).  The remote
service is a parameter (RemoteEnv): each of the three fetches either rejects
(network error) or delivers a status flag plus a body.  Throwing JavaScript
code is modelled with Except String.  The two Math.random draws of the mock
classifier are passed in explicitly (MockRng).
-/

/-- ASCII model of JavaScript String.prototype.toLowerCase, character by
character (the source only ever applies it to ASCII file names and labels). -/
def jsToLower (s : String) : String := ⟨s.data.map Char.toLower⟩

/-- Character-list core of String.prototype.startsWith: the first list is the
pattern, the second the text. -/
def charsBegin : List Char → List Char → Bool
  | [], _ => true
  | _ :: _, [] => false
  | p :: ps, c :: cs => p == c && charsBegin ps cs

/-- Model of s.startsWith(pat) on JavaScript strings. -/
def jsStartsWith (s pat : String) : Bool := charsBegin pat.data s.data

/-- Character-list core of String.prototype.includes: does the pattern occur
as a contiguous run anywhere in the text? -/
def charsContain (pat : List Char) : List Char → Bool
  | [] => charsBegin pat []
  | c :: rest => charsBegin pat (c :: rest) || charsContain pat rest

/-- Model of s.includes(sub) on JavaScript strings. -/
def jsIncludes (s sub : String) : Bool := charsContain sub.data s.data

/-- Model of s.endsWith(pat), used to state the stream-scan scenario. -/
def jsEndsWith (s pat : String) : Bool := charsBegin pat.data.reverse s.data.reverse

/-- JSON values as seen by the bridge after JSON.parse.  Json.null also
stands for JavaScript undefined: the source code only ever tests such values
for truthiness or reads properties off them, and null and undefined agree on
both (falsy; property access yields undefined). -/
inductive Json where
  | null : Json
  | bool (b : Bool) : Json
  | num (n : Int) : Json
  | str (s : String) : Json
  | arr (items : List Json) : Json
  | obj (fields : List (String × Json)) : Json

/-- JavaScript truthiness of a JSON value. -/
def Json.truthy : Json → Bool
  | .null => false
  | .bool b => b
  | .num n => if n = 0 then false else true
  | .str s => if s = "" then false else true
  | .arr _ => true
  | .obj _ => true

/-- Array.isArray. -/
def Json.isArr : Json → Bool
  | .arr _ => true
  | _ => false

/-- Property lookup in an object literal (JavaScript objects have unique
keys, so first match is the value).  Missing key yields Json.null, the model
of undefined. -/
def findField : List (String × Json) → String → Json
  | [], _ => .null
  | (k', v) :: rest, k => if k' = k then v else findField rest k

/-- Model of v.k (or v?.k) for an arbitrary JSON value: property access on a
non-object yields undefined, as does a missing key. -/
def jsGetD : Json → String → Json
  | .obj fields, k => findField fields k
  | _, _ => .null

/-- Model of v.length: defined for arrays and strings, undefined otherwise
(so a greater-than test on it is simply false). -/
def jsLen : Json → Option Nat
  | .arr items => some items.length
  | .str s => some s.length
  | _ => none

/-- Model of v[0] for arrays and strings (a one-character string for a
string, undefined when out of range or unsupported). -/
def jsIndex0 : Json → Json
  | .arr (x :: _) => x
  | .arr [] => .null
  | .str s =>
    match s.data with
    | c :: _ => .str ⟨[c]⟩
    | [] => .null
  | _ => .null

theorem sizeOf_json_pos (j : Json) : 1 ≤ sizeOf j := by
  cases j <;> simp

theorem sizeOf_findField (fields : List (String × Json)) (k : String) :
    sizeOf (findField fields k) < 1 + sizeOf fields := by
  induction fields with
  | nil => simp [findField]
  | cons p rest ih =>
    obtain ⟨k', v⟩ := p
    simp only [findField]
    split
    · simp
      omega
    · simp
      omega

theorem sizeOf_jsGetD (j : Json) (k : String) : sizeOf (jsGetD j k) ≤ sizeOf j := by
  cases j <;> simp [jsGetD]
  case obj fields =>
    have := sizeOf_findField fields k
    omega

theorem sizeOf_probe (fields : List (String × Json)) (k1 k2 : String) :
    sizeOf (jsGetD (findField fields k1) k2) < 1 + sizeOf fields := by
  have h1 := sizeOf_jsGetD (findField fields k1) k2
  have h2 := sizeOf_findField fields k1
  omega

/-- Embeds the constant Hugging Face space origin hard-coded throughout
aiService.ts. -/
def gradioBase : String := "https://utkarsh-23-pothole-yolo.hf.space"

/-- Embeds toAbsoluteGradioFileUrl, aiService.ts lines 66-80.  The final
default branch of the source writes the needsSlash ternary; it is split here
into the last two branches. -/
def toAbsoluteGradioFileUrl (rel : String) : String :=
  if rel = "" then ""
  else if jsStartsWith rel "http" then rel
  else if jsStartsWith rel "/file=" then gradioBase ++ rel
  else if jsStartsWith rel "/gradio_api/file=" then gradioBase ++ rel
  else if jsStartsWith rel "/gradio_api/file/" then gradioBase ++ rel
  else if jsStartsWith rel "/tmp/" then gradioBase ++ "/file=" ++ rel
  else if jsStartsWith rel "tmp/" then gradioBase ++ "/file=/" ++ rel
  else if jsStartsWith rel "file=" then gradioBase ++ "/" ++ rel
  else if jsStartsWith rel "file/" then gradioBase ++ "/gradio_api/" ++ rel
  else if jsStartsWith rel "/" then gradioBase ++ "/file=" ++ rel
  else gradioBase ++ "/file=/" ++ rel

/-- Embeds extractUrlFromOutput, aiService.ts lines 174-205.  The source
collects the candidate properties url, path, name, value, data.url,
data.path, data.name, drops the falsy ones with filter(Boolean), and returns
the first candidate whose recursive extraction is non-empty.  Dropping a
falsy candidate is observationally the same as recursing into it (the
recursion returns the empty string on every falsy value), so the candidates
are tried here in source order without the filter. -/
def extractUrlFromOutput : Json → String
  | .null => ""
  | .bool _ => ""
  | .num _ => ""
  | .str s =>
    if s = "" then ""
    else if jsStartsWith s "data:image/" then s
    else toAbsoluteGradioFileUrl s
  | .arr [] => ""
  | .arr (x :: xs) =>
    let u := extractUrlFromOutput x
    if u ≠ "" then u else extractUrlFromOutput (.arr xs)
  | .obj fields =>
    let u1 := extractUrlFromOutput (findField fields "url")
    if u1 ≠ "" then u1 else
    let u2 := extractUrlFromOutput (findField fields "path")
    if u2 ≠ "" then u2 else
    let u3 := extractUrlFromOutput (findField fields "name")
    if u3 ≠ "" then u3 else
    let u4 := extractUrlFromOutput (findField fields "value")
    if u4 ≠ "" then u4 else
    let u5 := extractUrlFromOutput (jsGetD (findField fields "data") "url")
    if u5 ≠ "" then u5 else
    let u6 := extractUrlFromOutput (jsGetD (findField fields "data") "path")
    if u6 ≠ "" then u6 else
    extractUrlFromOutput (jsGetD (findField fields "data") "name")
termination_by j => sizeOf j
decreasing_by
  all_goals simp_wf
  all_goals first
    | omega
    | (have h := sizeOf_findField fields "url"; omega)
    | (have h := sizeOf_findField fields "path"; omega)
    | (have h := sizeOf_findField fields "name"; omega)
    | (have h := sizeOf_findField fields "value"; omega)
    | (have h := sizeOf_probe fields "data" "url"; omega)
    | (have h := sizeOf_probe fields "data" "path"; omega)
    | (have h := sizeOf_probe fields "data" "name"; omega)

/-- One line of the server-sent-event stream read by getGradioResult: either
a line that starts with the marker data: and carries a JSON payload (none
when JSON.parse throws, which the source catches and ignores), or any other
line, which the source skips. -/
inductive SSELine where
  | dataLine (parsed : Option Json) : SSELine
  | otherLine (raw : String) : SSELine

/-- Embeds the per-frame url search of getGradioResult, aiService.ts lines
214-237.  The four checks run in source order; processedImageUrl is still
empty whenever a check is reached, because the loop breaks as soon as it is
set, so the negated-accumulator guards of the source are always true. -/
def frameUrl (j : Json) : String :=
  let u1 := if j.isArr then extractUrlFromOutput j else ""
  if u1 ≠ "" then u1 else
  let u2 :=
    if (jsGetD j "output").truthy && (jsGetD (jsGetD j "output") "data").truthy then
      extractUrlFromOutput (jsGetD (jsGetD j "output") "data")
    else ""
  if u2 ≠ "" then u2 else
  let u3 :=
    if (jsGetD j "data").isArr then extractUrlFromOutput (jsGetD j "data") else ""
  if u3 ≠ "" then u3 else
  if (jsGetD j "output").truthy && (jsGetD (jsGetD j "output") "value").truthy then
    extractUrlFromOutput (jsGetD (jsGetD j "output") "value")
  else ""

/-- Embeds the streaming while/for loop of getGradioResult, aiService.ts
lines 207-240: scan the data: lines in order, ignore unparsable ones, and
stop at the first frame that yields a non-empty url. -/
def scanFrames : List SSELine → String
  | [] => ""
  | SSELine.dataLine (some j) :: rest =>
    let u := frameUrl j
    if u ≠ "" then u else scanFrames rest
  | SSELine.dataLine none :: rest => scanFrames rest
  | SSELine.otherLine _ :: rest => scanFrames rest

/-- A fetch of the remote service: either the promise rejects (network
error) or a response arrives with its ok flag and a body. -/
inductive Fetched (β : Type) where
  | netErr : Fetched β
  | resp (ok : Bool) (body : β) : Fetched β

/-- Body of the upload response: JSON content type (none when JSON.parse
throws) or the plain-text fallback the source casts to the array type. -/
inductive UploadBody where
  | jsonBody (parsed : Option Json) : UploadBody
  | textBody (s : String) : UploadBody

/-- Behaviour of the remote inference service for the three fetches the
bridge performs: the multipart upload, the predict call, and the streamed
result fetch.  For the last one the body is the decoded list of stream
lines, none modelling a response without a body. -/
structure RemoteEnv where
  upload : Fetched UploadBody
  predictCall : Fetched (Option Json)
  resultFetch : Fetched (Option (List SSELine))

/-- The category union type of the source. -/
inductive Category where
  | pothole
  | garbage
  | streetlight
  | other
deriving Repr, DecidableEq

/-- The literal string carried by a category value in the source. -/
def Category.key : Category → String
  | .pothole => "pothole"
  | .garbage => "garbage"
  | .streetlight => "streetlight"
  | .other => "other"

/-- Embeds DEPARTMENT_MAP, aiService.ts lines 17-24. -/
def DEPARTMENT_MAP : List (String × String) :=
  [("pothole", "Road Maintenance"),
   ("garbage", "Sanitation"),
   ("streetlight", "Public Works"),
   ("water", "Water Department"),
   ("drainage", "Public Works"),
   ("other", "General Services")]

/-- Indexing into DEPARTMENT_MAP (every category key used by the source is
present, so the undefined default is never produced). -/
def deptFor (k : String) : String :=
  match DEPARTMENT_MAP.find? (fun p => p.1 == k) with
  | some p => p.2
  | none => ""

/-- The AIDetectionResult interface of aiService.ts lines 8-14.  Confidence
values are rationals standing for the JavaScript numbers involved, which are
exact in every expression the source builds. -/
structure AIDetectionResult where
  category : Category
  department : String
  confidence : Option Rat
  detectedLabels : Option (List String)
  processedImageUrl : Option String
deriving Repr

/-- The image file as the bridge consumes it: only its name is ever
inspected (by the mock fallback). -/
structure JsFile where
  name : String

/-- The two Math.random draws a mock-classifier call makes: the category
pick floor(random times 4) and the raw confidence draw. -/
structure MockRng where
  pick : Fin 4
  conf : Rat

/-- The category array the mock picks from, aiService.ts lines 332-333. -/
def categoriesList : List Category := [.pothole, .garbage, .streetlight, .other]

/-- Embeds mockAIDetection, aiService.ts lines 316-343 (the artificial delay
has no observable effect on the returned value and is dropped). -/
def mockAIDetection (imageFile : JsFile) (rng : MockRng) : AIDetectionResult :=
  let filename := jsToLower imageFile.name
  let category : Category :=
    if jsIncludes filename "pothole" || jsIncludes filename "road" then .pothole
    else if jsIncludes filename "garbage" || jsIncludes filename "trash" then .garbage
    else if jsIncludes filename "light" || jsIncludes filename "lamp" then .streetlight
    else categoriesList.getD rng.pick.val .other
  { category := category
    department := deptFor category.key
    confidence := some (0.75 + rng.conf * 0.2)
    detectedLabels := some ["mock_" ++ category.key ++ "_label"]
    processedImageUrl := none }

/-- Embeds uploadImageToGradio, aiService.ts lines 82-154: check the upload
response, read its body (JSON or the text fallback), pick the file path out
of the three accepted shapes, then issue the predict call and return its
event_id (null when absent).  Every throw of the source is an error value
here; the request payloads themselves do not influence the modelled
responses and are not represented. -/
def uploadImageToGradio (env : RemoteEnv) : Except String Json :=
  match env.upload with
  | .netErr => .error "fetch rejected"
  | .resp ok body =>
    if !ok then .error "Upload failed"
    else
      match (match body with
             | .jsonBody p => p
             | .textBody s => some (.str s)) with
      | none => .error "invalid JSON in upload response"
      | some uploadData =>
        let filePath : Json :=
          match uploadData with
          | .arr (x :: _) => x
          | _ =>
            if (jsGetD uploadData "files").truthy ∧
                0 < (jsLen (jsGetD uploadData "files")).getD 0 then
              jsIndex0 (jsGetD uploadData "files")
            else if (jsGetD uploadData "file").truthy then jsGetD uploadData "file"
            else .str ""
        if !filePath.truthy then .error "No file path received from upload"
        else
          match env.predictCall with
          | .netErr => .error "fetch rejected"
          | .resp pok pbody =>
            if !pok then .error "Gradio API error"
            else
              match pbody with
              | none => .error "invalid JSON in predict response"
              | some predictData => .ok (jsGetD predictData "event_id")

/-- Embeds getGradioResult, aiService.ts lines 156-258: fetch the stream,
scan its data: lines for a url, and on success return the fixed pothole
result carrying that url; throw when the stream is exhausted with no url. -/
def getGradioResult (fetched : Fetched (Option (List SSELine))) : Except String AIDetectionResult :=
  match fetched with
  | .netErr => .error "fetch rejected"
  | .resp ok body =>
    if !ok then .error "Failed to get result"
    else
      match body with
      | none => .error "No response body"
      | some lines =>
        if scanFrames lines = "" then .error "No processed image URL in response"
        else
          .ok { category := Category.pothole
                department := deptFor "pothole"
                confidence := some 0.85
                detectedLabels := some ["pothole detected by YOLO"]
                processedImageUrl := some (scanFrames lines) }

/-- The try block of detectIssueWithAI, aiService.ts lines 46-53: upload and
start prediction, fail when the event id is falsy, then collect the streamed
result. -/
def detectPipeline (env : RemoteEnv) : Except String AIDetectionResult :=
  match uploadImageToGradio env with
  | .error e => .error e
  | .ok eventId =>
    if !eventId.truthy then .error "Failed to get event ID from Gradio"
    else getGradioResult env.resultFetch

/-- Embeds detectIssueWithAI, aiService.ts lines 42-59: any error raised by
the pipeline is caught and replaced by the mock classifier result, so the
function is total. -/
def detectIssueWithAI (env : RemoteEnv) (imageFile : JsFile) (rng : MockRng) : AIDetectionResult :=
  match detectPipeline env with
  | .ok r => r
  | .error _ => mockAIDetection imageFile rng

/-- Embeds extractCategoryFromClassification, mockData.ts (second unit)
lines 149-176: case-insensitive keyword buckets checked in order pothole,
garbage, streetlight, default other. -/
def extractCategoryFromClassification (classification : String) : Category :=
  let lowerText := jsToLower classification
  if jsIncludes lowerText "pothole" || jsIncludes lowerText "road" ||
      jsIncludes lowerText "road maintenance" then .pothole
  else if jsIncludes lowerText "garbage" || jsIncludes lowerText "waste" ||
      jsIncludes lowerText "sanitation" || jsIncludes lowerText "trash" then .garbage
  else if jsIncludes lowerText "light" || jsIncludes lowerText "lamp" ||
      jsIncludes lowerText "public works" then .streetlight
  else .other

/-- A remote service stubbed so that every step fails: each fetch rejects. -/
def envAllFail : RemoteEnv :=
  { upload := .netErr, predictCall := .netErr, resultFetch := .netErr }

/-- A remote service whose three steps all succeed: the upload answers with
a file-path array, the predict call answers with an event id, and the stream
delivers one frame that is a bare array holding an absolute image url. -/
def envOk : RemoteEnv :=
  { upload := .resp true (.jsonBody (some (.arr [.str "up.png"])))
    predictCall := .resp true (some (.obj [("event_id", .str "ev-1")]))
    resultFetch := .resp true (some [SSELine.dataLine (some (.arr [.str "http://x/y.png"]))]) }

/-- The detection result the pipeline produces under envOk. -/
def resultOkC2 : AIDetectionResult :=
  { category := Category.pothole
    department := deptFor "pothole"
    confidence := some 0.85
    detectedLabels := some ["pothole detected by YOLO"]
    processedImageUrl := some "http://x/y.png" }

theorem pipeline_envOk : detectPipeline envOk = .ok resultOkC2 := by
  simp [detectPipeline, uploadImageToGradio, envOk, getGradioResult, scanFrames, frameUrl,
        extractUrlFromOutput, jsGetD, findField, Json.truthy, Json.isArr,
        toAbsoluteGradioFileUrl, jsStartsWith, charsBegin, resultOkC2]

/-- C1: whenever the remote pipeline fails -- network error, non-2xx
response, missing event id, stream exhaustion without a matched url, or a
parse exception, all of which surface as an error of detectPipeline --
detectIssueWithAI returns exactly the mock-classifier result, and its
category is one of the four valid categories; the function is total, so no
exception reaches the caller. -/
theorem claim_C1_detect_fallback_total (env : RemoteEnv) (imageFile : JsFile) (rng : MockRng)
    (e : String) (h : detectPipeline env = .error e) :
    detectIssueWithAI env imageFile rng = mockAIDetection imageFile rng ∧
    (detectIssueWithAI env imageFile rng).category ∈
      [Category.pothole, Category.garbage, Category.streetlight, Category.other] := by
  have hd : detectIssueWithAI env imageFile rng = mockAIDetection imageFile rng := by
    unfold detectIssueWithAI
    rw [h]
  refine ⟨hd, ?_⟩
  cases (detectIssueWithAI env imageFile rng).category <;> simp

theorem claim_C1_witness :
    detectPipeline envAllFail = .error "fetch rejected" ∧
    detectIssueWithAI envAllFail (JsFile.mk "anything.png") (MockRng.mk 0 0) =
      mockAIDetection (JsFile.mk "anything.png") (MockRng.mk 0 0) :=
  ⟨rfl,
   (claim_C1_detect_fallback_total envAllFail (JsFile.mk "anything.png") (MockRng.mk 0 0)
     "fetch rejected" rfl).1⟩

/-- C2: every successful Variant B call returns the fixed pothole result:
category pothole, department Road Maintenance, confidence 0.85, label list
pothole detected by YOLO; only processedImageUrl depends on the stream. -/
theorem claim_C2_success_fixed_fields (env : RemoteEnv) (imageFile : JsFile) (rng : MockRng)
    (r : AIDetectionResult) (h : detectPipeline env = .ok r) :
    detectIssueWithAI env imageFile rng = r ∧
    r.category = Category.pothole ∧
    r.department = "Road Maintenance" ∧
    r.confidence = some 0.85 ∧
    r.detectedLabels = some ["pothole detected by YOLO"] := by
  have hd : detectIssueWithAI env imageFile rng = r := by
    unfold detectIssueWithAI
    rw [h]
  refine ⟨hd, ?_⟩
  unfold detectPipeline at h
  split at h
  · simp at h
  · split at h
    · simp at h
    · unfold getGradioResult at h
      split at h
      · simp at h
      · split at h
        · simp at h
        · split at h
          · simp at h
          · split at h
            · simp at h
            · injection h with h2
              subst h2
              refine ⟨rfl, ?_, rfl, rfl⟩
              show deptFor "pothole" = "Road Maintenance"
              decide

theorem claim_C2_witness :
    detectIssueWithAI envOk (JsFile.mk "img.png") (MockRng.mk 0 0) = resultOkC2 ∧
    resultOkC2.category = Category.pothole ∧
    resultOkC2.department = "Road Maintenance" ∧
    resultOkC2.confidence = some 0.85 ∧
    resultOkC2.detectedLabels = some ["pothole detected by YOLO"] :=
  claim_C2_success_fixed_fields envOk (JsFile.mk "img.png") (MockRng.mk 0 0) resultOkC2
    pipeline_envOk

/-- C9 counterexample: with the remote service stubbed to reject
deterministically on every call, two runs of detect on the same image can
disagree, because the mock fallback consumes fresh Math.random draws on each
run; so the result is not a function of the image and the remote responses
alone.  The two runs below differ only in those draws. -/
theorem claim_C9_counterexample :
    (detectIssueWithAI envAllFail (JsFile.mk "photo.jpg") (MockRng.mk 0 0)).category ≠
      (detectIssueWithAI envAllFail (JsFile.mk "photo.jpg") (MockRng.mk 1 0)).category := by
  decide

/-- C9 amended: the bridge keeps no mutable state across calls, and whenever
the remote pipeline succeeds the detect result is a function of the remote
responses alone, so two runs with the same image and the same deterministic
stub return identical values whatever random draws the runs would have
consumed; on fallback the result additionally depends on the mock draws. -/
theorem claim_C9_pipeline_deterministic (env : RemoteEnv) (imageFile : JsFile)
    (rng1 rng2 : MockRng) (r : AIDetectionResult) (h : detectPipeline env = .ok r) :
    detectIssueWithAI env imageFile rng1 = detectIssueWithAI env imageFile rng2 := by
  unfold detectIssueWithAI
  rw [h]

theorem claim_C9_witness :
    detectPipeline envOk = .ok resultOkC2 ∧
    detectIssueWithAI envOk (JsFile.mk "a.jpg") (MockRng.mk 0 0) =
      detectIssueWithAI envOk (JsFile.mk "a.jpg") (MockRng.mk 2 (1/2)) :=
  ⟨pipeline_envOk,
   claim_C9_pipeline_deterministic envOk (JsFile.mk "a.jpg") (MockRng.mk 0 0)
     (MockRng.mk 2 (1/2)) resultOkC2 pipeline_envOk⟩

/-- C10: with the image named pothole_test.jpg and every remote step stubbed
to fail, detect falls back to the mock classifier, whose filename heuristic
matches the pothole substring, so the result has category pothole and
department Road Maintenance, for every pair of random draws. -/
theorem claim_C10_mock_filename_heuristic (rng : MockRng) :
    (detectIssueWithAI envAllFail (JsFile.mk "pothole_test.jpg") rng).category =
      Category.pothole ∧
    (detectIssueWithAI envAllFail (JsFile.mk "pothole_test.jpg") rng).department =
      "Road Maintenance" := by
  have hd : detectIssueWithAI envAllFail (JsFile.mk "pothole_test.jpg") rng =
      mockAIDetection (JsFile.mk "pothole_test.jpg") rng := rfl
  rw [hd]
  have hc : (jsIncludes (jsToLower "pothole_test.jpg") "pothole" ||
      jsIncludes (jsToLower "pothole_test.jpg") "road") = true := by decide
  constructor
  · simp [mockAIDetection, hc]
  · simp [mockAIDetection, hc]
    decide

/-- C3 counterexample: a frame value whose only payload sits at data.value
yields no url at all -- the source probes data.url, data.path and data.name
but not data.value -- while the claimed probing order would have extracted
and normalized the non-empty path pic.jpg. -/
theorem claim_C3_counterexample :
    extractUrlFromOutput (Json.obj [("data", Json.obj [("value", Json.str "pic.jpg")])]) = "" ∧
    toAbsoluteGradioFileUrl "pic.jpg" = gradioBase ++ "/file=/" ++ "pic.jpg" ∧
    gradioBase ++ "/file=/" ++ "pic.jpg" ≠ "" := by
  refine ⟨?_, by decide, by decide⟩
  simp [extractUrlFromOutput, findField, jsGetD]

/-- The object-field probing order actually implemented by the source: url,
path, name, value, then the nested data.url, data.path, data.name -- with no
data.value probe. -/
def objProbeSpec (fields : List (String × Json)) : List Json :=
  [findField fields "url", findField fields "path", findField fields "name",
   findField fields "value", jsGetD (findField fields "data") "url",
   jsGetD (findField fields "data") "path", jsGetD (findField fields "data") "name"]

/-- First-success composition over a candidate list, as the spec describes
the extraction cascade. -/
def firstExtracted : List Json → String
  | [] => ""
  | c :: cs =>
    if extractUrlFromOutput c ≠ "" then extractUrlFromOutput c else firstExtracted cs

/-- C3 amended: the extraction routine probes array elements recursively in
order, and for an object probes, in order, url, path, name, value, data.url,
data.path, data.name (data.value is not probed), returning the first
successfully extracted url. -/
theorem claim_C3_probe_order_amended :
    (∀ fields, extractUrlFromOutput (Json.obj fields) = firstExtracted (objProbeSpec fields)) ∧
    (∀ x xs, extractUrlFromOutput (Json.arr (x :: xs)) =
      if extractUrlFromOutput x ≠ "" then extractUrlFromOutput x
      else extractUrlFromOutput (Json.arr xs)) := by
  constructor
  · intro fields
    simp only [extractUrlFromOutput, objProbeSpec, firstExtracted]
    by_cases h7 : extractUrlFromOutput (jsGetD (findField fields "data") "name") = "" <;>
      simp [h7]
  · intro x xs
    simp only [extractUrlFromOutput]

/-- C4 counterexample: the string file=abc is non-empty and starts with none
of the six prefixes the claim lists, yet the routine does not treat it as a
root-relative file= path (which would give base/file=/file=abc): a ninth
source branch for the bare file= prefix returns base/file=abc instead. -/
theorem claim_C4_counterexample :
    ("file=abc" ≠ "" ∧
     jsStartsWith "file=abc" "http" = false ∧
     jsStartsWith "file=abc" "/file=" = false ∧
     jsStartsWith "file=abc" "/gradio_api/file=" = false ∧
     jsStartsWith "file=abc" "/gradio_api/file/" = false ∧
     jsStartsWith "file=abc" "/tmp/" = false ∧
     jsStartsWith "file=abc" "tmp/" = false) ∧
    toAbsoluteGradioFileUrl "file=abc" ≠ gradioBase ++ "/file=/" ++ "file=abc" ∧
    toAbsoluteGradioFileUrl "file=abc" = gradioBase ++ "/" ++ "file=abc" := by
  decide

/-- C4 amended: the default treat-as-root-relative-file= behaviour applies
to every non-empty path that starts with none of http, /file=,
/gradio_api/file=, /gradio_api/file/, /tmp/, tmp/, and additionally with
neither of the two further recognized prefixes file= and file/ (the claim
omitted those two). -/
theorem claim_C4_default_branch_amended (rel : String)
    (h : rel ≠ "" ∧
      jsStartsWith rel "http" = false ∧
      jsStartsWith rel "/file=" = false ∧
      jsStartsWith rel "/gradio_api/file=" = false ∧
      jsStartsWith rel "/gradio_api/file/" = false ∧
      jsStartsWith rel "/tmp/" = false ∧
      jsStartsWith rel "tmp/" = false ∧
      jsStartsWith rel "file=" = false ∧
      jsStartsWith rel "file/" = false) :
    toAbsoluteGradioFileUrl rel =
      if jsStartsWith rel "/" then gradioBase ++ "/file=" ++ rel
      else gradioBase ++ "/file=/" ++ rel := by
  obtain ⟨h0, h1, h2, h3, h4, h5, h6, h7, h8⟩ := h
  simp [toAbsoluteGradioFileUrl, h0, h1, h2, h3, h4, h5, h6, h7, h8]

theorem claim_C4_witness :
    ("images/out.png" ≠ "" ∧
     jsStartsWith "images/out.png" "http" = false ∧
     jsStartsWith "images/out.png" "/file=" = false ∧
     jsStartsWith "images/out.png" "/gradio_api/file=" = false ∧
     jsStartsWith "images/out.png" "/gradio_api/file/" = false ∧
     jsStartsWith "images/out.png" "/tmp/" = false ∧
     jsStartsWith "images/out.png" "tmp/" = false ∧
     jsStartsWith "images/out.png" "file=" = false ∧
     jsStartsWith "images/out.png" "file/" = false) ∧
    toAbsoluteGradioFileUrl "images/out.png" =
      (if jsStartsWith "images/out.png" "/" then gradioBase ++ "/file=" ++ "images/out.png"
       else gradioBase ++ "/file=/" ++ "images/out.png") :=
  ⟨by decide, claim_C4_default_branch_amended "images/out.png" (by decide)⟩

/-- C5: any classification text that contains pothole case-insensitively is
mapped to category pothole by the Variant A extraction, whatever else the
text contains, because the pothole bucket is checked first. -/
theorem claim_C5_pothole_checked_first (s : String)
    (h : jsIncludes (jsToLower s) "pothole" = true) :
    extractCategoryFromClassification s = Category.pothole := by
  simp [extractCategoryFromClassification, h]

theorem claim_C5_witness :
    jsIncludes (jsToLower "Garbage near a POTHOLE on the road") "pothole" = true ∧
    extractCategoryFromClassification "Garbage near a POTHOLE on the road" =
      Category.pothole :=
  ⟨by decide, claim_C5_pothole_checked_first _ (by decide)⟩

/-- C6: every path of the form /tmp/ followed by a non-empty suffix is
normalized to the base origin followed by /file=/tmp/ and the suffix,
exactly. -/
theorem claim_C6_tmp_path (x : String) (hx : x ≠ "") :
    toAbsoluteGradioFileUrl ("/tmp/" ++ x) =
      "https://utkarsh-23-pothole-yolo.hf.space/file=/tmp/" ++ x := by
  have hdata : ("/tmp/" ++ x).data = '/' :: 't' :: 'm' :: 'p' :: '/' :: x.data := by
    rw [String.data_append]
    rfl
  have hne : ("/tmp/" ++ x) ≠ "" := by
    intro he
    have h2 := congrArg String.data he
    rw [hdata] at h2
    simp at h2
  have f1 : jsStartsWith ("/tmp/" ++ x) "http" = false := by
    simp [jsStartsWith, hdata, charsBegin]
  have f2 : jsStartsWith ("/tmp/" ++ x) "/file=" = false := by
    simp [jsStartsWith, hdata, charsBegin]
  have f3 : jsStartsWith ("/tmp/" ++ x) "/gradio_api/file=" = false := by
    simp [jsStartsWith, hdata, charsBegin]
  have f4 : jsStartsWith ("/tmp/" ++ x) "/gradio_api/file/" = false := by
    simp [jsStartsWith, hdata, charsBegin]
  have t5 : jsStartsWith ("/tmp/" ++ x) "/tmp/" = true := by
    simp [jsStartsWith, hdata, charsBegin]
  have hbranch : toAbsoluteGradioFileUrl ("/tmp/" ++ x) =
      gradioBase ++ "/file=" ++ ("/tmp/" ++ x) := by
    simp [toAbsoluteGradioFileUrl, hne, f1, f2, f3, f4, t5]
  rw [hbranch, ← String.append_assoc]
  exact congrArg (fun t => t ++ x) (by decide)

theorem claim_C6_witness :
    ("out.jpg" ≠ "") ∧
    toAbsoluteGradioFileUrl ("/tmp/" ++ "out.jpg") =
      "https://utkarsh-23-pothole-yolo.hf.space/file=/tmp/" ++ "out.jpg" :=
  ⟨by decide, claim_C6_tmp_path "out.jpg" (by decide)⟩

/-- C7: a string value that begins with data:image/ is returned unchanged by
the stream-frame url extraction, with no prefix rewriting. -/
theorem claim_C7_data_image_passthrough (s : String)
    (h : jsStartsWith s "data:image/" = true) :
    extractUrlFromOutput (Json.str s) = s := by
  have hs : s ≠ "" := by
    intro he
    subst he
    simp [jsStartsWith, charsBegin] at h
  simp [extractUrlFromOutput, hs, h]

theorem claim_C7_witness :
    jsStartsWith "data:image/png;base64,iVBORw0KGgo" "data:image/" = true ∧
    extractUrlFromOutput (Json.str "data:image/png;base64,iVBORw0KGgo") =
      "data:image/png;base64,iVBORw0KGgo" :=
  ⟨by decide, claim_C7_data_image_passthrough _ (by decide)⟩

/-- A first stream frame from which no url can be extracted. -/
def frameNoUrl : Json := Json.obj [("msg", Json.str "process_starts"), ("event_id", Json.str "ev-1")]

/-- The second stream frame of the scenario: output.data holds one object
whose path field is /tmp/out.jpg. -/
def frameWithUrl : Json :=
  Json.obj [("output", Json.obj [("data", Json.arr [Json.obj [("path", Json.str "/tmp/out.jpg")]])])]

/-- The two data: frames of the C8 scenario, in arrival order. -/
def streamC8 : List SSELine :=
  [SSELine.dataLine (some frameNoUrl), SSELine.dataLine (some frameWithUrl)]

/-- The detection result getGradioResult produces for streamC8. -/
def resultC8 : AIDetectionResult :=
  { category := Category.pothole
    department := deptFor "pothole"
    confidence := some 0.85
    detectedLabels := some ["pothole detected by YOLO"]
    processedImageUrl := some (gradioBase ++ "/file=" ++ "/tmp/out.jpg") }

/-- C8: on a stream whose first frame yields no url and whose second frame
carries output.data with path /tmp/out.jpg, the scan does not stop at the
first frame, getGradioResult succeeds, and the returned processedImageUrl
ends in /file=/tmp/out.jpg. -/
theorem claim_C8_two_frame_scan :
    frameUrl frameNoUrl = "" ∧
    getGradioResult (Fetched.resp true (some streamC8)) = Except.ok resultC8 ∧
    jsEndsWith (gradioBase ++ "/file=" ++ "/tmp/out.jpg") "/file=/tmp/out.jpg" = true ∧
    resultC8.department = "Road Maintenance" := by
  have h8 : ¬ (gradioBase ++ "/file=" ++ "/tmp/out.jpg" = "") := by decide
  refine ⟨?_, ?_, by decide, by decide⟩
  · simp [frameUrl, frameNoUrl, extractUrlFromOutput, jsGetD, findField, Json.truthy, Json.isArr]
  · simp [getGradioResult, streamC8, scanFrames, frameUrl, frameNoUrl, frameWithUrl,
          extractUrlFromOutput, jsGetD, findField, Json.truthy, Json.isArr,
          toAbsoluteGradioFileUrl, jsStartsWith, charsBegin, resultC8, h8]
